import Mathlib

/-!
Shallow embedding of the portfolio-chat backend (Django application) in Lean 4.

Strings are modelled as `List Char` (ASCII semantics; all inputs of interest
are ASCII).  Machine floats in the source appear only as the comparison
thresholds 0.3, 0.7 and 0.5 in `portfolio/utils.py`; those comparisons are
embedded as exact rational comparisons over naturals (for example
`count > len * 0.3` becomes `3 * len < 10 * count`), which agrees with the
Python float semantics for every message length the function can reach
(the two sides of each comparison are either equal as rationals, in which
case the rounded float product also compares equal because the relative
rounding deficit of `fl(0.3)` and friends is below half an ulp, or they
differ by at least `1/(10 * 500)`, far above any rounding error).
-/

namespace PortfolioChat

/-- Convert a Lean string literal to the `List Char` representation used
throughout the development. -/
def strL (s : String) : List Char := s.data

/-- Python `str.lower` on an ASCII character. -/
def pyLower (c : Char) : Char :=
  if 65 ≤ c.toNat ∧ c.toNat ≤ 90 then Char.ofNat (c.toNat + 32) else c

/-- Python whitespace for `str.strip` / `str.split` (ASCII): space, tab,
newline, carriage return, vertical tab, form feed. -/
def isWS (c : Char) : Bool :=
  c.toNat == 32 || c.toNat == 9 || c.toNat == 10 ||
  c.toNat == 13 || c.toNat == 11 || c.toNat == 12

/-- Python `str.isupper` on an ASCII character. -/
def isUpperCh (c : Char) : Bool := 65 ≤ c.toNat && c.toNat ≤ 90

/-- ASCII letter or digit. -/
def isAlnumCh (c : Char) : Bool :=
  (97 ≤ c.toNat && c.toNat ≤ 122) || (65 ≤ c.toNat && c.toNat ≤ 90) ||
  (48 ≤ c.toNat && c.toNat ≤ 57)

/-- Characters accepted by the regex class `[^a-zA-Z0-9\s\.\?\!\,\x27\x22]`
in `utils.validate_message_content` (utils.py line 38): alphanumerics,
whitespace, period, question mark, exclamation mark, comma, apostrophe,
double quote. -/
def isAllowedSpecial (c : Char) : Bool :=
  isAlnumCh c || isWS c || c.toNat == 46 || c.toNat == 63 ||
  c.toNat == 33 || c.toNat == 44 || c.toNat == 39 || c.toNat == 34

/-- Regex word character `\w` (ASCII): letter, digit or underscore. -/
def isWordChar (c : Char) : Bool := isAlnumCh c || c.toNat == 95

/-- Python `str.strip()`: drop leading and trailing whitespace. -/
def pyStrip (l : List Char) : List Char :=
  ((l.dropWhile isWS).reverse.dropWhile isWS).reverse

/-- Helper for splitting a list into maximal runs of characters satisfying
`keep`, discarding separator characters; `acc` holds the current run in
reverse. -/
def splitRunsAux (keep : Char → Bool) : List Char → List Char → List (List Char)
  | [], acc => if acc.isEmpty then [] else [acc.reverse]
  | c :: rest, acc =>
    if keep c then splitRunsAux keep rest (c :: acc)
    else if acc.isEmpty then splitRunsAux keep rest []
    else acc.reverse :: splitRunsAux keep rest []

/-- Python `str.split()` with no argument: maximal runs of non-whitespace. -/
def splitWS (l : List Char) : List (List Char) :=
  splitRunsAux (fun c => !isWS c) l []

/-- The regex `re.findall(r"\b\w+\b", s)`: all maximal runs of word
characters. -/
def reWords (l : List Char) : List (List Char) :=
  splitRunsAux isWordChar l []

/-- Substring test, Python `needle in hay`. -/
def containsSub (n : List Char) : List Char → Bool
  | [] => n.isEmpty
  | c :: t => n.isPrefixOf (c :: t) || containsSub n t

/-- Scan for the regex `(.)\1{4,}` (utils.py line 43): a run of five or more
equal characters.  In Python `.` does not match a newline, so a run of
newlines does not count. -/
def repeatRunAux : Char → Nat → List Char → Bool
  | c0, n, [] => 5 ≤ n && c0.toNat != 10
  | c0, n, c :: rest =>
    if c == c0 then
      if 5 ≤ n + 1 && c0.toNat != 10 then true else repeatRunAux c0 (n + 1) rest
    else repeatRunAux c 1 rest

/-- True when the message contains five or more consecutive equal
characters (other than newline). -/
def hasRepeatRun : List Char → Bool
  | [] => false
  | c :: rest => repeatRunAux c 1 rest

/-- Count of characters rejected by the special-character regex class
(utils.py lines 38-40). -/
def specialCharCount (l : List Char) : Nat :=
  (l.filter (fun c => !isAllowedSpecial c)).length

/-- Count of uppercase characters (utils.py line 48). -/
def capsCount (l : List Char) : Nat := (l.filter isUpperCh).length

/-- The fixed profanity set `PROFANITY_WORDS` of utils.py lines 8-13.
Python iterates it as a set; the embedding fixes the source order, which is
irrelevant because only emptiness of the matched sublist is observable. -/
def PROFANITY_WORDS : List (List Char) :=
  [strL ("damn"), strL ("hell"), strL ("crap"), strL ("stupid"),
   strL ("idiot"), strL ("moron"), strL ("dumb"), strL ("suck"),
   strL ("sucks"), strL ("hate"), strL ("kill"), strL ("die"),
   strL ("death"), strL ("murder"), strL ("assault"), strL ("attack"),
   strL ("violence"), strL ("spam"), strL ("scam"), strL ("fraud"),
   strL ("fake"), strL ("bot"), strL ("automated"), strL ("fuck"),
   strL ("shit"), strL ("bitch"), strL ("bastard"), strL ("ass"),
   strL ("asshole"), strL ("fag"), strL ("faggot"), strL ("cunt")]

/-- The whitelist `ACCEPTABLE_WORDS` of utils.py lines 16-20. -/
def ACCEPTABLE_WORDS : List (List Char) :=
  [strL ("skills"), strL ("skilled"), strL ("skillful"),
   strL ("skillfully"), strL ("skillet"), strL ("skill"),
   strL ("classical"), strL ("glasses"), strL ("class"),
   strL ("massage"), strL ("assess"), strL ("assessment"),
   strL ("assassin"), strL ("assistance"), strL ("assistant"),
   strL ("passion"), strL ("passionate")]

/-- Number of distinct lowercased words, for the spam heuristic
(utils.py lines 72-76). -/
def uniqueWordCount (ws : List (List Char)) : Nat :=
  ((ws.map (List.map pyLower)).dedup).length

/-- Embedding of `utils.validate_message_content` (utils.py lines 22-78).
Returns `(is_valid, error_message)`.  The checks run in source order and
short-circuit on the first failure. -/
def validate_message_content (msg : List Char) : Bool × String :=
  let m := pyStrip msg
  if m.length < 3 then (false, "Message too short (minimum 3 characters)")
  else if 500 < m.length then
    (false, "Message too long (maximum 500 characters)")
  else if 3 * m.length < 10 * specialCharCount m then
    (false, "Message contains too many special characters")
  else if hasRepeatRun m then
    (false, "Message contains excessive repeated characters")
  else if 10 < m.length ∧ 7 * m.length < 10 * capsCount m then
    (false, "Message contains excessive capital letters")
  else
    let lowered := m.map pyLower
    let wordsInMessage := reWords lowered
    let acceptableFound :=
      wordsInMessage.filter (fun w => ACCEPTABLE_WORDS.contains w)
    let foundProfanity :=
      PROFANITY_WORDS.filter (fun w =>
        containsSub w lowered &&
          !(acceptableFound.any (fun a => containsSub w a)))
    if foundProfanity.isEmpty then
      let ws := splitWS m
      if 3 < ws.length ∧ 2 * uniqueWordCount ws < ws.length then
        (false, "Message appears to be spam")
      else (true, "")
    else (false, "Message contains inappropriate content")

/-- Python slice `previous_messages[-3:]`. -/
def lastThree (l : List (List Char)) : List (List Char) :=
  l.drop (l.length - 3)

/-- Embedding of `utils.is_suspicious_pattern` (utils.py lines 80-92): the
new message matches one of the (at most three) previous user messages up to
strip and lowercase. -/
def is_suspicious_pattern (msg : List Char) (previous : List (List Char)) : Bool :=
  (lastThree previous).any (fun p =>
    (pyStrip msg).map pyLower == (pyStrip p).map pyLower)

/-! ## Rate limiter

Embedding of the per-IP fixed-window counter used by `views.chat_query`
(views.py lines 45-53).  The Django cache entry for one client key is
modelled as an optional pair of counter value and absolute expiry instant;
`cache.get(key, 0)` returns 0 once the entry has expired, and
`cache.set(key, v, 60)` stores `v` with a fresh 60-second time-to-live. -/

/-- One client's cache entry: counter value and the instant it expires. -/
structure CacheEntry where
  count : Nat
  expiresAt : Nat
deriving DecidableEq

/-- Django `cache.get(key, 0)` at instant `now`. -/
def cacheGet (st : Option CacheEntry) (now : Nat) : Nat :=
  match st with
  | some e => if now < e.expiresAt then e.count else 0
  | none => 0

/-- One admission decision of the chat rate limiter (views.py lines 46-53):
reject with 429 when the counter has reached 10, otherwise increment the
counter and refresh its time-to-live to 60 seconds from now.  Returns the
new cache state and whether the request was admitted. -/
def chatRateStep (st : Option CacheEntry) (now : Nat) : Option CacheEntry × Bool :=
  let recent := cacheGet st now
  if 10 ≤ recent then (st, false)
  else (some ⟨recent + 1, now + 60⟩, true)

/-- Run the rate limiter over a sequence of request instants, collecting
the admission decision of each request. -/
def chatRateRun (st : Option CacheEntry) : List Nat → Option CacheEntry × List Bool
  | [] => (st, [])
  | t :: ts =>
    let (st1, ok) := chatRateStep st t
    let (st2, oks) := chatRateRun st1 ts
    (st2, ok :: oks)

/-! ## FAQ records and source-FAQ matching -/

/-- Embedding of the `FAQ` model rows (models.py lines 76-110).  `audio`
holds the stored audio bytes when `audio_file` is set; `createdAt` stands
for `created_at` (larger is more recent).  The model declares no
`audio_word_timestamps` field. -/
structure FAQr where
  id : Nat
  question : List Char
  response : List Char
  media_urls : List (List Char)
  is_featured : Bool
  is_active : Bool
  priority : Nat
  createdAt : Nat
  audio : Option (List Nat)
  audio_generation_time_ms : Option Nat
deriving DecidableEq

/-- The `FAQ.has_audio` property (models.py lines 107-110). -/
def FAQr.has_audio (f : FAQr) : Bool := f.audio.isSome

/-- Django default ordering key for FAQ querysets, from
`Meta.ordering = [-priority, -created_at]` (models.py line 100): `a`
sorts before `b` when it has higher priority, or equal priority and a more
recent creation stamp. -/
def faqBefore (a b : FAQr) : Bool :=
  b.priority < a.priority ||
    (a.priority == b.priority && b.createdAt ≤ a.createdAt)

/-- Stable insertion into a list sorted by `faqBefore`. -/
def faqInsert (f : FAQr) : List FAQr → List FAQr
  | [] => [f]
  | g :: gs => if faqBefore g f then g :: faqInsert f gs else f :: g :: gs

/-- Stable sort of the FAQ table by the model's default ordering. -/
def faqOrder : List FAQr → List FAQr
  | [] => []
  | f :: fs => faqInsert f (faqOrder fs)

/-- Whitespace normalization applied to the reply before matching
(services.py line 181): Python `" ".join(response_text.split()).strip()`. -/
def cleanWS (l : List Char) : List Char :=
  pyStrip (List.intercalate [Char.ofNat 32] (splitWS l))

/-- Case-insensitive exact string equality, Django `__iexact` (ASCII). -/
def iexact (a b : List Char) : Bool := a.map pyLower == b.map pyLower

/-- Embedding of `PortfolioLLMService._find_source_faq_for_response`
(services.py lines 174-198): normalize the reply's whitespace, then return
the first active FAQ (under the model's default ordering) whose `response`
is an `__iexact` match; `none` when there is no exact match. -/
def find_source_faq_for_response (faqs : List FAQr) (response_text : List Char) :
    Option FAQr :=
  let cleaned := cleanWS response_text
  (faqOrder faqs).find? (fun f => f.is_active && iexact f.response cleaned)

/-! ## Content store: Project, CaseStudy, Section (models.py lines 8-73)

`CaseStudy.project` is a `OneToOneField` with `related_name="case_study"`
(models.py line 36), so a `Project` instance exposes at most one case study
through the attribute `case_study`; the embedding records it as an optional
field.  `CaseStudy` has fields `category`, `hero_image`,
`problem_statement`, `solution_overview`, `impact_metrics`,
`lessons_learned`, `next_steps` (models.py lines 36-43) - it has no
`title` and no `description` field, and `Project` has no `case_studies`
attribute. -/

/-- Embedding of the `Section` model rows (models.py lines 52-67). -/
structure SectionR where
  title : List Char
  section_type : List Char
  content : List Char
  order : Nat
  media_urls : List (List Char)
deriving DecidableEq

/-- Embedding of the `CaseStudy` model rows (models.py lines 29-49),
together with the reverse `sections` relation. -/
structure CaseStudyR where
  category : List Char
  hero_image : Option (List Char)
  problem_statement : List Char
  solution_overview : List Char
  impact_metrics : List (List Char)
  lessons_learned : List Char
  next_steps : List Char
  sections : List SectionR
deriving DecidableEq

/-- Embedding of the `Project` model rows (models.py lines 8-26), together
with the reverse one-to-one `case_study` relation. -/
structure ProjectR where
  title : List Char
  slug : List Char
  summary : List Char
  description : List Char
  role : List Char
  timeline : List Char
  technologies : List (List Char)
  featured : Bool
  case_study : Option CaseStudyR
deriving DecidableEq

/-- Python runtime errors that the embedded code can raise. -/
inductive PyErr where
  | valueError
  | attributeError
  | apiError
deriving DecidableEq

/-- Attribute lookup `project.case_studies` performed by
`PortfolioLLMService.get_portfolio_context` (services.py line 39) and by
`SlideService.extract_relevant_media` (slide_service.py line 254).
models.py line 36 names the reverse accessor `case_study` (one-to-one),
so no `case_studies` attribute exists on a `Project` instance and the
lookup raises `AttributeError`. -/
def projectAttrCaseStudies (_p : ProjectR) : Except PyErr (List CaseStudyR) :=
  Except.error PyErr.attributeError

/-- The per-project header block built by `get_portfolio_context`
(services.py lines 28-36) before the case-study loop. -/
def renderProjectHeader (p : ProjectR) : List Char :=
  strL ("\nPROJECT: ") ++ p.title ++
  strL ("\nRole: ") ++ p.role ++
  strL ("\nTimeline: ") ++ p.timeline ++
  strL ("\nTechnologies: ") ++ List.intercalate (strL (", ")) p.technologies ++
  strL ("\nSummary: ") ++ p.summary ++
  strL ("\nDescription: ") ++ p.description ++
  strL ("\nFeatured: ") ++ (if p.featured then strL ("Yes") else strL ("No")) ++
  strL ("\n")

/-- Embedding of `PortfolioLLMService.get_portfolio_context` (services.py
lines 20-57).  For each project the code renders the header block and then
iterates `project.case_studies.all()`; that attribute lookup raises
`AttributeError` (see `projectAttrCaseStudies`), so the function errors as
soon as at least one project exists.  (Were the loop entered, the body
would additionally read `case_study.title` and `case_study.description`,
which are also not fields of `CaseStudy`.) -/
def get_portfolio_context (projects : List ProjectR) : Except PyErr (List Char) := do
  let parts ← projects.mapM (fun p => do
    let _header := renderProjectHeader p
    let _caseStudies ← projectAttrCaseStudies p
    pure _header)
  pure (strL ("\n") ++ List.replicate 50 (Char.ofNat 61) ++
    strL ("\n") ++ List.intercalate [] parts)

/-- Embedding of `PortfolioLLMService.get_faq_context` (services.py lines
59-83): the first 20 active FAQs under the model's default ordering
(priority descending, then recency descending), each rendered as a
question/answer block with its media list. -/
def get_faq_context (faqs : List FAQr) : List Char :=
  let chosen := ((faqOrder faqs).filter (fun f => f.is_active)).take 20
  if chosen.isEmpty then []
  else
    let parts := chosen.map (fun f =>
      strL ("\nQ: ") ++ f.question ++ strL ("\nA: ") ++ f.response ++
        (if f.media_urls.isEmpty then []
         else strL ("\nMedia: ") ++ List.intercalate (strL (", ")) f.media_urls))
    strL ("\n\nFREQUENTLY ASKED QUESTIONS:\n") ++
      List.replicate 50 (Char.ofNat 61) ++
      List.intercalate [] parts

/-! ## Conversation ledger (models.py lines 113-173, views.py lines 87-148) -/

/-- Message kind, from `Message.MESSAGE_TYPES`. -/
inductive MsgType where
  | user_query
  | ai_response
deriving DecidableEq

/-- Embedding of the `Message` model rows (models.py lines 129-173).
`response_length` is kept as the raw string the request supplied, as the
view does.  `audio` holds the stored audio bytes of `audio_file`.  The
model declares no `audio_word_timestamps` and no `slide_media_urls`
field. -/
structure MessageR where
  message_type : MsgType
  content : List Char
  order_in_session : Nat
  response_length : List Char
  response_time_ms : Option Nat
  token_count : Option Nat
  source_faq : Option Nat
  audio : Option (List Nat)
  audio_generation_time_ms : Option Nat
  slide_title : Option (List Char)
  slide_body : Option (List Char)
deriving DecidableEq

/-- Embedding of the `Conversation` model rows (models.py lines 113-126)
together with the reverse `messages` relation, kept in append order
(`order_in_session` ascending, which is also timestamp order). -/
structure ConversationR where
  session_id : Nat
  total_messages : Nat
  is_active : Bool
  ip_address : List Char
  user_agent : List Char
  messages : List MessageR
deriving DecidableEq

/-- Fresh `Message` row for the user query, as created by views.py lines
113-119. -/
def mkUserMessage (q : List Char) (next_order : Nat) (rl : List Char) : MessageR :=
  { message_type := MsgType.user_query
    content := q
    order_in_session := next_order
    response_length := rl
    response_time_ms := none
    token_count := none
    source_faq := none
    audio := none
    audio_generation_time_ms := none
    slide_title := none
    slide_body := none }

/-- Fresh `Message` row for the AI reply, as created by views.py lines
131-140.  `token_count` is the estimate of line 128: `len(query +
response) // 4`. -/
def mkAiMessage (q aiContent : List Char) (next_order : Nat) (rl : List Char)
    (rtMs : Nat) (sf : Option Nat) : MessageR :=
  { message_type := MsgType.ai_response
    content := aiContent
    order_in_session := next_order + 1
    response_length := rl
    response_time_ms := some rtMs
    token_count := some ((q.length + aiContent.length) / 4)
    source_faq := sf
    audio := none
    audio_generation_time_ms := none
    slide_title := none
    slide_body := none }

/-- Embedding of the ledger append performed inside the transaction of
`views.chat_query` (views.py lines 109-148), with the outcome of the
generation call supplied as input (`aiContent`, `sf`, `rtMs`): compute
`next_order` as the current message count plus one, create the user
message at `next_order` and the AI message at `next_order + 1`, then set
`total_messages` to the new message count.  The whole of this runs inside
one `transaction.atomic()` block, so it is modelled as a single state
transition.  Returns the updated conversation and the two created rows. -/
def appendTurn (conv : ConversationR) (q : List Char) (rl : List Char)
    (aiContent : List Char) (sf : Option Nat) (rtMs : Nat) :
    ConversationR × MessageR × MessageR :=
  let next_order := conv.messages.length + 1
  let userMsg := mkUserMessage q next_order rl
  let aiMsg := mkAiMessage q aiContent next_order rl rtMs sf
  let msgs := conv.messages ++ [userMsg, aiMsg]
  ({ conv with messages := msgs, total_messages := msgs.length },
   userMsg, aiMsg)

/-! ## Voice service (voice_service.py) -/

/-- The `Message.has_audio` property (models.py lines 170-173). -/
def MessageR.has_audio (m : MessageR) : Bool := m.audio.isSome

/-- Resolve a `source_faq` foreign key against the FAQ table, as Django
does when `message.source_faq` is accessed on a row loaded from the
database. -/
def findFaq (faqs : List FAQr) (i : Nat) : Option FAQr :=
  faqs.find? (fun f => f.id == i)

/-- Attribute lookup `faq_obj.audio_word_timestamps` performed by
`VoiceService._copy_faq_audio_to_message` (voice_service.py line 347).
The `FAQ` model (models.py lines 76-110) declares `audio_file`,
`audio_generated_at` and `audio_generation_time_ms` but no
`audio_word_timestamps` field, and on an FAQ instance freshly loaded from
the database nothing has set such an attribute, so the lookup raises
`AttributeError`.  (voice_service.py line 397 does assign the attribute,
but only transiently on the in-memory instance: `save()` persists model
fields only, so the value never reaches the database.) -/
def faqAttrAudioWordTimestamps (_f : FAQr) : Except PyErr (List (List Char × Nat × Nat)) :=
  Except.error PyErr.attributeError

/-- Embedding of `VoiceService._copy_faq_audio_to_message`
(voice_service.py lines 319-355) for a message and an FAQ loaded from the
database.  The try block checks the FAQ has audio, reads its bytes,
attaches the file to the message with `save=False` (storage write only, no
row update), then reads `faq_obj.audio_word_timestamps` - which raises
`AttributeError` (see `faqAttrAudioWordTimestamps`) - so the except clause
returns `False` before `message_obj.save()` runs, leaving the message row
unchanged.  Returns the success flag and the message row as persisted. -/
def copy_faq_audio_to_message (faq : FAQr) (msg : MessageR) : Bool × MessageR :=
  match faq.audio with
  | none => (false, msg)
  | some data =>
    if data.isEmpty then (false, msg)
    else
      match faqAttrAudioWordTimestamps faq with
      | Except.error _ => (false, msg)
      | Except.ok _ts =>
        (true, { msg with
                   audio := some data,
                   audio_generation_time_ms :=
                     some (faq.audio_generation_time_ms.getD 0) })

/-- Embedding of `VoiceService.generate_and_save_audio_for_message`
(voice_service.py lines 229-289), called with `text=None` so the message
content is voiced.  The external text-to-speech call of the fresh-synthesis
branch is abstracted by the oracle `tts` (the bytes it would return, or
`none` on failure); `genMs` abstracts the wall-clock generation time.  The
FAQ-reuse branch (lines 251-253) never consults the oracle. -/
def generate_and_save_audio_for_message (faqs : List FAQr)
    (tts : Option (List Nat)) (genMs : Nat) (msg : MessageR) : Bool × MessageR :=
  if msg.message_type ≠ MsgType.ai_response then (false, msg)
  else if msg.has_audio then (true, msg)
  else
    match msg.source_faq.bind (findFaq faqs) with
    | some f =>
      if f.has_audio then copy_faq_audio_to_message f msg
      else freshSynthesis
    | none => freshSynthesis
where
  freshSynthesis : Bool × MessageR :=
    match tts with
    | none => (false, msg)
    | some data =>
      if data.isEmpty then (false, msg)
      else (true, { msg with
                      audio := some data,
                      audio_generation_time_ms := some genMs })

/-! ## Chat endpoint (views.chat_query, views.py lines 21-169)

The two outbound calls to the chat-completion vendor are abstracted by an
oracle carrying the raw reply text of the first call (or `none` when the
call raises) and the raw suggestion lines of the second.  Everything else
is translated from the source. -/

/-- Outcomes of the external chat-completion calls made during one turn. -/
structure LLMOracle where
  reply : Option (List Char)
  suggestLines : Option (List (List Char))

/-- Python values as they cross the dynamically-typed boundary between
`PortfolioLLMService.generate_response` and the view: the members of the
returned tuple. -/
inductive PyVal where
  | vstr (s : List Char)
  | vfaq (f : Option FAQr)
  | vlist (l : List (List Char))
deriving DecidableEq

/-- Python tuple unpacking `a, b = t`: succeeds exactly when the tuple has
two members, otherwise raises `ValueError` (too many / not enough values
to unpack).  views.py line 124 applies this to the value returned by
`generate_response`. -/
def unpack2 (xs : List PyVal) : Except PyErr (PyVal × PyVal) :=
  match xs with
  | [a, b] => Except.ok (a, b)
  | _ => Except.error PyErr.valueError

/-- Embedding of `PortfolioLLMService._get_fallback_suggestions`
(services.py lines 240-270): keyword-bucketed canned follow-up sets. -/
def fallback_suggestions (query : List Char) : List (List Char) :=
  let ql := query.map pyLower
  if [strL ("project"), strL ("work"), strL ("built"),
      strL ("created")].any (fun w => containsSub w ql) then
    [strL ("What technologies did you use for this project?"),
     strL ("What challenges did you face during development?"),
     strL ("How long did this project take to complete?")]
  else if [strL ("skill"), strL ("technology"), strL ("tech"),
      strL ("language")].any (fun w => containsSub w ql) then
    [strL ("What projects showcase these skills best?"),
     strL ("How did you learn these technologies?"),
     strL ("What\x27s your preferred tech stack?")]
  else if [strL ("design"), strL ("ux"), strL ("ui"),
      strL ("user")].any (fun w => containsSub w ql) then
    [strL ("What\x27s your design process like?"),
     strL ("How do you approach user research?"),
     strL ("What design tools do you prefer?")]
  else
    [strL ("What projects are you most proud of?"),
     strL ("What technologies do you enjoy working with?"),
     strL ("What\x27s your development process like?")]

/-- Embedding of `PortfolioLLMService.generate_follow_up_suggestions`
(services.py lines 200-238): strip the suggestion lines, keep at most
three that are at most 80 characters and end in a question mark, and fall
back to the canned sets when the call fails or nothing qualifies. -/
def generate_follow_up_suggestions (llm : LLMOracle) (query : List Char) :
    List (List Char) :=
  match llm.suggestLines with
  | none => fallback_suggestions query
  | some ls =>
    let parsed := (ls.map pyStrip).filter (fun s => !s.isEmpty)
    let kept := (parsed.take 3).filter (fun s =>
      s.length ≤ 80 && s.getLast? == some (Char.ofNat 63))
    if kept.isEmpty then fallback_suggestions query else kept

/-- The fixed apology returned when anything in the try block of
`generate_response` raises (services.py line 172). -/
def apologyText : List Char :=
  strL ("I\x27m sorry, I\x27m having trouble processing your question right now. Could you please try again in a moment?")

/-- Embedding of `PortfolioLLMService.generate_response` (services.py
lines 136-172).  The try block first builds the system prompt, which calls
`get_portfolio_context` - a call that raises `AttributeError` whenever at
least one project exists (see `get_portfolio_context`) - then performs the
external completion call (oracle).  Any exception yields the fixed
apology.  Both branches return a 3-member tuple
`(response_text, source_faq, follow_up_suggestions)`. -/
def generate_response (projects : List ProjectR) (faqs : List FAQr)
    (llm : LLMOracle) (query rl : List Char) : List PyVal :=
  match get_portfolio_context projects with
  | Except.error _ => [PyVal.vstr apologyText, PyVal.vfaq none, PyVal.vlist []]
  | Except.ok _ctx =>
    let _faqCtx := get_faq_context faqs
    let _rl := rl
    match llm.reply with
    | none => [PyVal.vstr apologyText, PyVal.vfaq none, PyVal.vlist []]
    | some raw =>
      let text := pyStrip raw
      [PyVal.vstr text,
       PyVal.vfaq (find_source_faq_for_response faqs text),
       PyVal.vlist (generate_follow_up_suggestions llm query)]

/-- Coerce a tuple member expected to be the reply string; a mismatch
would be a Python `TypeError`-like failure, modelled as `valueError`. -/
def pyValStr : PyVal → Except PyErr (List Char)
  | PyVal.vstr s => Except.ok s
  | _ => Except.error PyErr.valueError

/-- Coerce a tuple member expected to be the optional source FAQ. -/
def pyValFaq : PyVal → Except PyErr (Option FAQr)
  | PyVal.vfaq f => Except.ok f
  | _ => Except.error PyErr.valueError

/-- Embedding of `SlideService.generate_slide_for_message`
(slide_service.py lines 173-218).  Its final
`save(update_fields=[slide_title, slide_body, slide_media_urls])`
(line 211) names `slide_media_urls`, which is not a field of `Message`
(models.py lines 129-161), so Django raises `ValueError`; the except
clause at line 216 swallows it and returns `False`, and the message row is
never updated. -/
def generate_slide_for_message (msg : MessageR) : Bool × MessageR :=
  (false, msg)

/-- Find a conversation by session token (Django
`Conversation.objects.get(session_id=...)`). -/
def findConv (convs : List ConversationR) (s : Nat) : Option ConversationR :=
  convs.find? (fun c => c.session_id == s)

/-- Replace an existing conversation row (matched by session id) or append
a newly created one. -/
def upsertConv (convs : List ConversationR) (c : ConversationR) : List ConversationR :=
  if (convs.filter (fun d => d.session_id == c.session_id)).isEmpty
  then convs ++ [c]
  else convs.map (fun d => if d.session_id == c.session_id then c else d)

/-- Success payload of a completed chat turn (views.py lines 150-159); the
created rows stand in for their database ids. -/
structure ChatSuccess where
  response : List Char
  query : List Char
  session_id : Nat
  message_count : Nat
  userMessage : MessageR
  aiMessage : MessageR
deriving DecidableEq

/-- Request body of the chat endpoint after JSON decoding, with the client
address and user agent taken from the request headers. -/
structure ReqBody where
  query : List Char
  session_id : Option Nat
  response_length : List Char
  ip : List Char
  ua : List Char
deriving DecidableEq

/-- Global state visible to one chat request: the rate-limit cache entry
for this client, the current instant, and the database tables.
`nextSession` feeds the UUID generator for new conversations. -/
structure World where
  cache : Option CacheEntry
  now : Nat
  conversations : List ConversationR
  projects : List ProjectR
  faqs : List FAQr
  nextSession : Nat
deriving DecidableEq

/-- HTTP response of the chat endpoint: status, error message when any,
success payload when the turn completed. -/
structure HttpResp where
  status : Nat
  errorMsg : Option String
  success : Option ChatSuccess
deriving DecidableEq

/-- Embedding of the `transaction.atomic()` block of `views.chat_query`
(views.py lines 87-148): load or create the conversation, append the user
message, call `generate_response` and unpack its result into two names
(line 124) - the unpacking of the 3-member tuple raises `ValueError`, see
`unpack2` - then (were that reached) append the AI message, generate the
slide and refresh `total_messages`.  An `Except.error` models an exception
escaping the block. -/
def chatTransaction (convs : List ConversationR) (nextSession : Nat)
    (projects : List ProjectR) (faqs : List FAQr) (llm : LLMOracle)
    (sid : Option Nat) (q rl ip ua : List Char) (rtMs : Nat) :
    Except PyErr (List ConversationR × ChatSuccess) := do
  let conv : ConversationR :=
    match sid with
    | some s =>
      match findConv convs s with
      | some c => c
      | none =>
        { session_id := nextSession, total_messages := 0, is_active := true,
          ip_address := ip, user_agent := ua, messages := [] }
    | none =>
      { session_id := nextSession, total_messages := 0, is_active := true,
        ip_address := ip, user_agent := ua, messages := [] }
  let next_order := conv.messages.length + 1
  let userMsg := mkUserMessage q next_order rl
  let conv1 := { conv with messages := conv.messages ++ [userMsg] }
  let pair ← unpack2 (generate_response projects faqs llm q rl)
  let aiContent ← pyValStr pair.1
  let sf ← pyValFaq pair.2
  let aiMsg := mkAiMessage q aiContent next_order rl rtMs (sf.map (fun f => f.id))
  let (_slideOk, aiMsg1) := generate_slide_for_message aiMsg
  let conv2 := { conv1 with messages := conv1.messages ++ [aiMsg1] }
  let conv3 := { conv2 with total_messages := conv2.messages.length }
  pure (upsertConv convs conv3,
    { response := aiContent, query := q, session_id := conv3.session_id,
      message_count := conv3.total_messages,
      userMessage := userMsg, aiMessage := aiMsg1 })

/-- Run the transaction with Django rollback semantics and build the HTTP
answer: on success the new table state and the 200 payload, on an escaping
exception the tables are rolled back unchanged and the generic handler
(views.py lines 165-169) answers 500. -/
def chatRunTransaction (w : World) (llm : LLMOracle) (sid : Option Nat)
    (q rl ip ua : List Char) (rtMs : Nat) : World × HttpResp :=
  match chatTransaction w.conversations w.nextSession w.projects w.faqs llm
      sid q rl ip ua rtMs with
  | Except.ok (convs2, succ) =>
    ({ w with conversations := convs2, nextSession := w.nextSession + 1 },
     { status := 200, errorMsg := none, success := some succ })
  | Except.error _ =>
    (w, { status := 500,
          errorMsg := some ("An error occurred processing your request"),
          success := none })

/-- Contents of the last three user-query messages of a conversation in
recency order, as fetched by views.py lines 74-76. -/
def recentUserContents (c : ConversationR) : List (List Char) :=
  (((c.messages.filter (fun m => m.message_type == MsgType.user_query)).reverse).take 3).map
    (fun m => m.content)

/-- Embedding of `views.chat_query` (views.py lines 21-169): JSON
decoding, empty-query check, rate limiting, content moderation, session
cap and duplicate-message checks, then the atomic turn.  `body = none`
models a request whose body is not valid JSON.  Returns the new world
state and the HTTP response. -/
def chat_query (w : World) (body : Option ReqBody) (llm : LLMOracle)
    (rtMs : Nat) : World × HttpResp :=
  match body with
  | none =>
    (w, { status := 400, errorMsg := some ("Invalid JSON in request body"),
          success := none })
  | some b =>
    let q := pyStrip b.query
    if q.isEmpty then
      (w, { status := 400, errorMsg := some ("Query is required"), success := none })
    else
      let (cache1, admitted) := chatRateStep w.cache w.now
      if !admitted then
        (w, { status := 429,
              errorMsg := some ("Rate limit exceeded. Please wait before sending another message."),
              success := none })
      else
        let w1 := { w with cache := cache1 }
        let (ok, errText) := validate_message_content q
        if !ok then
          (w1, { status := 400, errorMsg := some errText, success := none })
        else
          match b.session_id with
          | some s =>
            match findConv w1.conversations s with
            | some c =>
              if 50 ≤ c.total_messages then
                (w1, { status := 429,
                       errorMsg := some ("Session message limit reached. Please start a new conversation."),
                       success := none })
              else if is_suspicious_pattern q (recentUserContents c) then
                (w1, { status := 400,
                       errorMsg := some ("Please avoid sending duplicate messages."),
                       success := none })
              else
                chatRunTransaction w1 llm b.session_id q b.response_length b.ip b.ua rtMs
            | none =>
              chatRunTransaction w1 llm b.session_id q b.response_length b.ip b.ua rtMs
          | none =>
            chatRunTransaction w1 llm b.session_id q b.response_length b.ip b.ua rtMs

/-! ## Concrete sample rows used by witnesses and counterexamples -/

/-- A 501-character raw message whose stripped form is a valid
15-character message: 15 visible characters followed by 486 spaces. -/
def paddedMessage : List Char :=
  strL ("good day friend") ++ List.replicate 486 (Char.ofNat 32)

/-- Sample section row. -/
def sampleSection : SectionR :=
  { title := strL ("Research"), section_type := strL ("research"),
    content := strL ("User interviews"), order := 1, media_urls := [] }

/-- Sample case-study row. -/
def sampleCaseStudy : CaseStudyR :=
  { category := strL ("design"), hero_image := none,
    problem_statement := strL ("Hard to browse"),
    solution_overview := strL ("A chat interface"),
    impact_metrics := [], lessons_learned := strL ("Scope early"),
    next_steps := strL ("Ship it"), sections := [sampleSection] }

/-- Sample project row, with a case study attached. -/
def sampleProject : ProjectR :=
  { title := strL ("Portfolio Chat"), slug := strL ("portfolio-chat"),
    summary := strL ("A conversational portfolio"),
    description := strL ("Chat with my portfolio"),
    role := strL ("Designer and developer"), timeline := strL ("2024"),
    technologies := [strL ("Django"), strL ("Vue")], featured := true,
    case_study := some sampleCaseStudy }

/-- An active FAQ that already has generated audio stored. -/
def faqWithAudio : FAQr :=
  { id := 7, question := strL ("What do you build?"),
    response := strL ("I build web applications."),
    media_urls := [], is_featured := false, is_active := true,
    priority := 5, createdAt := 10, audio := some [1, 2, 3],
    audio_generation_time_ms := some 1200 }

/-- An active FAQ without audio, lower priority than `faqWithAudio`. -/
def faqPlain : FAQr :=
  { id := 8, question := strL ("Where are you based?"),
    response := strL ("I am based in Michigan."),
    media_urls := [], is_featured := false, is_active := true,
    priority := 1, createdAt := 11, audio := none,
    audio_generation_time_ms := none }

/-- An AI-response message without audio whose `source_faq` is
`faqWithAudio`, as loaded from the database. -/
def msgFromFaq : MessageR :=
  { message_type := MsgType.ai_response,
    content := strL ("I build web applications."),
    order_in_session := 2, response_length := strL ("short"),
    response_time_ms := some 420, token_count := some 12,
    source_faq := some 7, audio := none,
    audio_generation_time_ms := none, slide_title := none,
    slide_body := none }

/-- A conversation with no messages yet, as created on a first request. -/
def freshConv : ConversationR :=
  { session_id := 1, total_messages := 0, is_active := true,
    ip_address := strL ("127.0.0.1"), user_agent := [], messages := [] }

/-- A conversation holding one prior turn, under session token 42. -/
def conv42 : ConversationR :=
  { session_id := 42, total_messages := 2, is_active := true,
    ip_address := strL ("127.0.0.1"), user_agent := [],
    messages :=
      [mkUserMessage (strL ("Tell me about you")) 1 (strL ("short")),
       mkAiMessage (strL ("Tell me about you"))
         (strL ("I am a designer.")) 1 (strL ("short")) 300 none] }

/-- Empty world: no cache entry, empty tables. -/
def w0 : World :=
  { cache := none, now := 0, conversations := [], projects := [],
    faqs := [], nextSession := 1 }

/-- World with one prior conversation, one project and two FAQs. -/
def w2 : World :=
  { cache := none, now := 100, conversations := [conv42],
    projects := [sampleProject], faqs := [faqWithAudio, faqPlain],
    nextSession := 43 }

/-- A well-formed chat request that opens a new session. -/
def b0 : ReqBody :=
  { query := strL ("What are your skills?"), session_id := none,
    response_length := strL ("short"), ip := strL ("127.0.0.1"),
    ua := strL ("test-client") }

/-- A well-formed chat request onto the existing session 42. -/
def b1 : ReqBody :=
  { query := strL ("What are your skills?"), session_id := some 42,
    response_length := strL ("short"), ip := strL ("127.0.0.1"),
    ua := strL ("test-client") }

/-- A vendor oracle whose completion call succeeds. -/
def llm0 : LLMOracle :=
  { reply := some (strL ("I design and build web applications.")),
    suggestLines := none }

/-! ## Theorems -/

/-- C6: `validate_message_content` accepts a message containing the word
"skills" (the profanity substrings it contains, such as "kill", are
explained by the whitelisted word "skills"), and rejects a message
containing "this is shit" as inappropriate content. -/
theorem c6_whitelist_and_profanity :
    validate_message_content (strL ("What are your skills?")) = (true, "") ∧
    validate_message_content (strL ("this is shit")) =
      (false, "Message contains inappropriate content") := by
  constructor <;> rfl

set_option maxRecDepth 4000 in
/-- Sentinel for C5: the claim as stated quantifies over the raw input
length, but `validate_message_content` strips the message first
(utils.py line 28), so this 501-character input is accepted. -/
theorem c5_counterexample_raw_length :
    paddedMessage.length = 501 ∧
    validate_message_content paddedMessage = (true, "") := by
  constructor <;> rfl

/-- C5 (amended): the length checks of `validate_message_content` apply to
the message after stripping leading and trailing whitespace: a stripped
length below 3 is rejected with the too-short reason, a stripped length
above 500 with the too-long reason. -/
theorem c5_length_checks (msg : List Char)
    (h : (pyStrip msg).length < 3 ∨ 500 < (pyStrip msg).length) :
    validate_message_content msg =
      (false,
        if (pyStrip msg).length < 3 then "Message too short (minimum 3 characters)"
        else "Message too long (maximum 500 characters)") := by
  simp only [validate_message_content]
  rcases h with h | h
  · rw [if_pos h, if_pos h]
  · have h3 : ¬ (pyStrip msg).length < 3 := by omega
    rw [if_neg h3, if_pos h, if_neg h3]

/-- Witness for C5: the too-short branch at the two-character message
"hi", via `c5_length_checks`. -/
theorem c5_length_checks_witness :
    validate_message_content (strL ("hi")) =
      (false, "Message too short (minimum 3 characters)") :=
  (c5_length_checks (strL ("hi")) (Or.inl (by decide))).trans (by decide)

/-- C10: a message that passes the length, special-character, repetition
and caps checks but contains a profanity-set entry as a substring, with no
whitelisted word of the message explaining that substring, is rejected as
inappropriate content - even when the profanity occurs only inside a
larger innocuous word (such as "ass" inside "classic"). -/
theorem c10_substring_profanity (msg m : List Char) (hm : m = pyStrip msg)
    (hlen3 : 3 ≤ m.length) (hlen500 : m.length ≤ 500)
    (hspecial : 10 * specialCharCount m ≤ 3 * m.length)
    (hrep : hasRepeatRun m = false)
    (hcaps : ¬(10 < m.length ∧ 7 * m.length < 10 * capsCount m))
    (w : List Char) (hw : w ∈ PROFANITY_WORDS)
    (hsub : containsSub w (m.map pyLower) = true)
    (hnotexc : ∀ a ∈ (reWords (m.map pyLower)).filter
        (fun x => ACCEPTABLE_WORDS.contains x), containsSub w a = false) :
    validate_message_content msg =
      (false, "Message contains inappropriate content") := by
  simp only [validate_message_content, ← hm]
  have h1 : ¬ m.length < 3 := by omega
  have h2 : ¬ 500 < m.length := by omega
  have h3 : ¬ 3 * m.length < 10 * specialCharCount m := by omega
  rw [if_neg h1, if_neg h2, if_neg h3, if_neg (by simp [hrep]), if_neg hcaps]
  have hmem : w ∈ PROFANITY_WORDS.filter (fun w' =>
      containsSub w' (m.map pyLower) &&
        !(((reWords (m.map pyLower)).filter
            (fun x => ACCEPTABLE_WORDS.contains x)).any
          (fun a => containsSub w' a))) := by
    refine List.mem_filter.mpr ⟨hw, ?_⟩
    rw [Bool.and_eq_true]
    refine ⟨hsub, ?_⟩
    rw [Bool.not_eq_true', List.any_eq_false]
    intro a ha
    simp [hnotexc a ha]
  have hne : (PROFANITY_WORDS.filter (fun w' =>
      containsSub w' (m.map pyLower) &&
        !(((reWords (m.map pyLower)).filter
            (fun x => ACCEPTABLE_WORDS.contains x)).any
          (fun a => containsSub w' a)))).isEmpty = false := by
    rcases hfp : PROFANITY_WORDS.filter _ with _ | ⟨x, xs⟩
    · rw [hfp] at hmem; cases hmem
    · rfl
  rw [hne]
  rfl

/-- Witness for C10: the message "about classic design" contains "ass"
only inside "classic", which is not whitelisted, so it is rejected. -/
theorem c10_substring_profanity_witness :
    validate_message_content (strL ("about classic design")) =
      (false, "Message contains inappropriate content") :=
  c10_substring_profanity (strL ("about classic design"))
    (pyStrip (strL ("about classic design"))) rfl
    (by decide) (by decide) (by decide) (by decide) (by decide)
    (strL ("ass")) (by decide) (by decide) (by decide)

/-- Helper: running the rate limiter over a concatenation composes. -/
theorem chatRateRun_append (st : Option CacheEntry) (xs ys : List Nat) :
    chatRateRun st (xs ++ ys) =
      ((chatRateRun (chatRateRun st xs).1 ys).1,
       (chatRateRun st xs).2 ++ (chatRateRun (chatRateRun st xs).1 ys).2) := by
  induction xs generalizing st with
  | nil => rfl
  | cons x xs ih =>
    rcases hx : chatRateStep st x with ⟨st1, ok⟩
    simp [chatRateRun, hx, ih st1]

/-- Helper: while the counter is below the threshold, every request whose
instant lies in the window `[t1, t1 + 60)` of the first request is
admitted, increments the counter by one and refreshes the expiry to 60
seconds past its own instant (hence past `t1 + 60`). -/
theorem chatRateRun_admits_below_threshold (t1 : Nat) (ts : List Nat) :
    ∀ c exp : Nat, c + ts.length ≤ 10 → t1 + 60 ≤ exp →
    (∀ t ∈ ts, t1 ≤ t ∧ t < t1 + 60) →
    ∃ exp2, t1 + 60 ≤ exp2 ∧
      chatRateRun (some ⟨c, exp⟩) ts =
        (some ⟨c + ts.length, exp2⟩, List.replicate ts.length true) := by
  induction ts with
  | nil => exact fun c exp _ hexp _ => ⟨exp, hexp, rfl⟩
  | cons t ts ih =>
    intro c exp hc hexp hts
    obtain ⟨ht1, ht2⟩ := hts t (by simp)
    have hnow : t < exp := lt_of_lt_of_le ht2 hexp
    have hclt : ¬ 10 ≤ c := by simp at hc; omega
    have hstep : chatRateStep (some ⟨c, exp⟩) t = (some ⟨c + 1, t + 60⟩, true) := by
      simp only [chatRateStep, cacheGet, if_pos hnow]
      rw [if_neg hclt]
    obtain ⟨exp2, hexp2, hrun⟩ :=
      ih (c + 1) (t + 60) (by simp at hc ⊢; omega) (by omega)
        (fun u hu => hts u (by simp [hu]))
    refine ⟨exp2, hexp2, ?_⟩
    simp only [chatRateRun, hstep, hrun, List.length_cons, List.replicate_succ]
    refine Prod.ext ?_ rfl
    simp only
    congr 2
    omega

/-- C7: starting from an empty cache entry, eleven chat requests from the
same client whose instants all lie within the 60-second window opened by
the first request are handled as follows - the first ten are admitted
(in particular the tenth), the eleventh is rejected, and after the ten
admitted requests the counter stands at 10 with a time-to-live reaching
past the window (each admitted request having incremented the counter and
refreshed the expiry to 60 seconds after its own instant). -/
theorem c7_rate_limit_eleven_requests (t1 tlast : Nat) (mid : List Nat)
    (hmid : mid.length = 9)
    (hall : ∀ t ∈ mid ++ [tlast], t1 ≤ t ∧ t < t1 + 60) :
    (chatRateRun none (t1 :: (mid ++ [tlast]))).2 =
      List.replicate 10 true ++ [false] ∧
    ∃ exp2, t1 + 60 ≤ exp2 ∧
      (chatRateRun none (t1 :: (mid ++ [tlast]))).1 = some ⟨10, exp2⟩ := by
  have hstep1 : chatRateStep none t1 = (some ⟨1, t1 + 60⟩, true) := rfl
  obtain ⟨exp2, hexp2, hrun⟩ :=
    chatRateRun_admits_below_threshold t1 mid 1 (t1 + 60)
      (by omega) le_rfl (fun t ht => hall t (by simp [ht]))
  obtain ⟨hl1, hl2⟩ := hall tlast (by simp)
  have hnow : tlast < exp2 := lt_of_lt_of_le hl2 hexp2
  have hrej : chatRateStep (some ⟨1 + mid.length, exp2⟩) tlast =
      (some ⟨1 + mid.length, exp2⟩, false) := by
    simp only [chatRateStep, cacheGet, if_pos hnow]
    rw [if_pos (by omega)]
  have hmidlast : chatRateRun (some ⟨1, t1 + 60⟩) (mid ++ [tlast]) =
      (some ⟨1 + mid.length, exp2⟩,
        List.replicate mid.length true ++ [false]) := by
    rw [chatRateRun_append, hrun]
    simp only [chatRateRun, hrej]
  constructor
  · simp only [chatRateRun, hstep1, hmidlast, hmid]
    rfl
  · refine ⟨exp2, hexp2, ?_⟩
    simp only [chatRateRun, hstep1, hmidlast, hmid]

/-- Witness for C7: eleven requests all at instant 0. -/
theorem c7_rate_limit_witness :
    (chatRateRun none (0 :: (List.replicate 9 0 ++ [0]))).2 =
      List.replicate 10 true ++ [false] :=
  (c7_rate_limit_eleven_requests 0 0 (List.replicate 9 0)
    (by decide) (by decide)).1

/-- Helper: membership in an insertion step of the FAQ ordering. -/
theorem mem_faqInsert (a f : FAQr) (l : List FAQr) :
    a ∈ faqInsert f l ↔ a = f ∨ a ∈ l := by
  induction l with
  | nil => simp [faqInsert]
  | cons g gs ih =>
    by_cases h : faqBefore g f = true
    · simp only [faqInsert, if_pos h, List.mem_cons, ih]
      tauto
    · simp only [faqInsert, if_neg h, List.mem_cons]

/-- Helper: sorting the FAQ table by its default ordering preserves
membership. -/
theorem mem_faqOrder (a : FAQr) (l : List FAQr) :
    a ∈ faqOrder l ↔ a ∈ l := by
  induction l with
  | nil => simp [faqOrder]
  | cons f fs ih => simp [faqOrder, mem_faqInsert, ih]

/-- C4: `_find_source_faq_for_response` links a reply to an FAQ exactly
when the whitespace-normalized reply is a case-insensitive exact match of
an active FAQ's response.  First part: when exactly one active FAQ
matches, that FAQ is returned.  Second part: when no active FAQ matches -
in particular when the reply only partially overlaps FAQ responses - the
result is `none`. -/
theorem c4_source_faq_exact_match (faqs : List FAQr) (reply : List Char)
    (f : FAQr) :
    (f ∈ faqs → f.is_active = true →
      iexact f.response (cleanWS reply) = true →
      (∀ g ∈ faqs, g.is_active = true →
        iexact g.response (cleanWS reply) = true → g = f) →
      find_source_faq_for_response faqs reply = some f) ∧
    ((∀ g ∈ faqs, ¬(g.is_active = true ∧
        iexact g.response (cleanWS reply) = true)) →
      find_source_faq_for_response faqs reply = none) := by
  constructor
  · intro hf hact hmatch huniq
    simp only [find_source_faq_for_response]
    rcases hfind : (faqOrder faqs).find?
        (fun g => g.is_active && iexact g.response (cleanWS reply)) with _ | g
    · exfalso
      have hnone := List.find?_eq_none.mp hfind f ((mem_faqOrder f faqs).mpr hf)
      rw [Bool.and_eq_true] at hnone
      exact hnone ⟨hact, hmatch⟩
    · have hpred := List.find?_some hfind
      rw [Bool.and_eq_true] at hpred
      have hgmem := (mem_faqOrder g faqs).mp (List.mem_of_find?_eq_some hfind)
      rw [hfind, huniq g hgmem hpred.1 hpred.2]
  · intro hnone
    simp only [find_source_faq_for_response]
    rw [List.find?_eq_none]
    intro g hg
    rw [Bool.and_eq_true]
    exact hnone g ((mem_faqOrder g faqs).mp hg)

/-- Witness for C4: in a two-FAQ table, a reply differing from
`faqWithAudio.response` only in case and internal whitespace is linked to
that FAQ, while a reply that is a strict prefix of it (partial overlap)
yields no source FAQ. -/
theorem c4_source_faq_exact_match_witness :
    find_source_faq_for_response [faqWithAudio, faqPlain]
      (strL ("  i  build WEB applications. ")) = some faqWithAudio ∧
    find_source_faq_for_response [faqWithAudio, faqPlain]
      (strL ("I build web")) = none :=
  ⟨(c4_source_faq_exact_match [faqWithAudio, faqPlain]
      (strL ("  i  build WEB applications. ")) faqWithAudio).1
      (by decide) (by decide) (by decide) (by decide),
   (c4_source_faq_exact_match [faqWithAudio, faqPlain]
      (strL ("I build web")) faqWithAudio).2 (by decide)⟩

/-- C8: appending a turn to a freshly created conversation (no messages
yet) creates the user message with `order_in_session` 1 and the AI message
with `order_in_session` 2, and leaves `total_messages` at 2 together with
exactly those two rows.  `appendTurn` models the body of the single
`transaction.atomic()` block of views.py lines 109-148 as one state
transition, so the two rows and the counter update form one atomic
unit. -/
theorem c8_append_turn_fresh (conv : ConversationR) (q rl ai : List Char)
    (sf : Option Nat) (rtMs : Nat) (hfresh : conv.messages = []) :
    (appendTurn conv q rl ai sf rtMs).2.1.order_in_session = 1 ∧
    (appendTurn conv q rl ai sf rtMs).2.2.order_in_session = 2 ∧
    (appendTurn conv q rl ai sf rtMs).1.total_messages = 2 ∧
    (appendTurn conv q rl ai sf rtMs).1.messages =
      [(appendTurn conv q rl ai sf rtMs).2.1,
       (appendTurn conv q rl ai sf rtMs).2.2] := by
  simp [appendTurn, mkUserMessage, mkAiMessage, hfresh]

/-- Witness for C8: appending a concrete turn to `freshConv`. -/
theorem c8_append_turn_fresh_witness :
    (appendTurn freshConv (strL ("Hi there")) (strL ("short"))
      (strL ("Hello!")) none 200).2.1.order_in_session = 1 ∧
    (appendTurn freshConv (strL ("Hi there")) (strL ("short"))
      (strL ("Hello!")) none 200).2.2.order_in_session = 2 ∧
    (appendTurn freshConv (strL ("Hi there")) (strL ("short"))
      (strL ("Hello!")) none 200).1.total_messages = 2 :=
  have h := c8_append_turn_fresh freshConv (strL ("Hi there"))
    (strL ("short")) (strL ("Hello!")) none 200 rfl
  ⟨h.1, h.2.1, h.2.2.1⟩

/-- C3 (divergence witness): the context assembler raises
`AttributeError` as soon as the project table is non-empty, because
services.py line 39 iterates `project.case_studies.all()` while the model
defines the reverse accessor as `case_study` (models.py line 36) - so no
per-project block, no case-study narrative and no section content is ever
rendered.  (The loop body would in addition read `case_study.title` and
`case_study.description`, which are equally not fields of `CaseStudy`.) -/
theorem c3_context_assembly_raises (p : ProjectR) (ps : List ProjectR) :
    get_portfolio_context (p :: ps) = Except.error PyErr.attributeError := rfl

/-- C2: for an AI-response message without audio whose `source_faq` has
stored audio, `generate_and_save_audio_for_message` never consults the
text-to-speech provider (the result is the same for every provider
outcome `tts` and timing `genMs`), but the copy fails: reading
`faq.audio_word_timestamps` (voice_service.py line 347) raises
`AttributeError` because the FAQ model has no such field, the except
clause returns `False`, and the message row is left without audio and
without timestamps. -/
theorem c2_faq_audio_copy_fails (tts : Option (List Nat)) (genMs : Nat) :
    generate_and_save_audio_for_message [faqWithAudio, faqPlain] tts genMs
      msgFromFaq = (false, msgFromFaq) := rfl

/-- Helper: `generate_response` returns a 3-member tuple in every case
(services.py lines 168 and 172), so the two-name unpacking at views.py
line 124 always raises `ValueError`. -/
theorem unpack2_generate_response (projects : List ProjectR)
    (faqs : List FAQr) (llm : LLMOracle) (q rl : List Char) :
    unpack2 (generate_response projects faqs llm q rl) =
      Except.error PyErr.valueError := by
  unfold generate_response
  rcases hg : get_portfolio_context projects with _ | ctx
  · rfl
  · rcases hr : llm.reply with _ | raw <;> rfl

/-- Helper: the atomic block of `views.chat_query` always raises: the
tuple unpacking at views.py line 124 fails, so the transaction ends in
`ValueError` whatever the request, tables and oracle are. -/
theorem chatTransaction_valueError (convs : List ConversationR)
    (nextSession : Nat) (projects : List ProjectR) (faqs : List FAQr)
    (llm : LLMOracle) (sid : Option Nat) (q rl ip ua : List Char)
    (rtMs : Nat) :
    chatTransaction convs nextSession projects faqs llm sid q rl ip ua rtMs =
      Except.error PyErr.valueError := by
  unfold chatTransaction
  rw [unpack2_generate_response]
  rfl

/-- C1 (divergence witness): a syntactically valid chat request with a
non-empty query that passes moderation, rate limiting and the session cap
does not receive the success payload: views.py line 124 unpacks the
3-tuple returned by `generate_response` into two names, the resulting
`ValueError` escapes the atomic block, and the generic handler answers
500 - for every vendor-oracle outcome and timing.  Only the rate-limit
counter changes; no conversation is created. -/
theorem c1_valid_chat_request_returns_500 (llm : LLMOracle) (rtMs : Nat) :
    chat_query w0 (some b0) llm rtMs =
      ({ w0 with cache := some ⟨1, 60⟩ },
       { status := 500,
         errorMsg := some ("An error occurred processing your request"),
         success := none }) := by
  have hstep : chat_query w0 (some b0) llm rtMs =
      chatRunTransaction { w0 with cache := some ⟨1, 60⟩ } llm none
        (pyStrip b0.query) b0.response_length b0.ip b0.ua rtMs := rfl
  rw [hstep]
  unfold chatRunTransaction
  rw [chatTransaction_valueError]

/-- C9: whenever a chat request passes the admission checks (non-empty
query, rate limit, moderation, session cap, duplicate filter) and an
exception escapes the persistence phase, `chat_query` answers 500 with the
generic error message and the conversation table is exactly as before:
no conversation created, no message rows added, no counters changed. -/
theorem c9_persistence_exception_rolls_back (w : World) (b : ReqBody)
    (llm : LLMOracle) (rtMs : Nat)
    (hq : (pyStrip b.query).isEmpty = false)
    (hrate : cacheGet w.cache w.now < 10)
    (hvalid : (validate_message_content (pyStrip b.query)).1 = true)
    (hsess : ∀ s c, b.session_id = some s →
      findConv w.conversations s = some c →
      c.total_messages < 50 ∧
        is_suspicious_pattern (pyStrip b.query) (recentUserContents c) = false)
    (herr : ∃ e, chatTransaction w.conversations w.nextSession w.projects
      w.faqs llm b.session_id (pyStrip b.query) b.response_length b.ip b.ua
      rtMs = Except.error e) :
    (chat_query w (some b) llm rtMs).2.status = 500 ∧
    (chat_query w (some b) llm rtMs).2.errorMsg =
      some ("An error occurred processing your request") ∧
    (chat_query w (some b) llm rtMs).1.conversations = w.conversations := by
  have hrt : chatRateStep w.cache w.now =
      (some ⟨cacheGet w.cache w.now + 1, w.now + 60⟩, true) := by
    unfold chatRateStep
    rw [if_neg (by omega)]
  obtain ⟨e, he⟩ := herr
  have hrun : ∀ (w1 : World) (sid : Option Nat),
      w1.conversations = w.conversations →
      chatTransaction w1.conversations w1.nextSession w1.projects w1.faqs
        llm sid (pyStrip b.query) b.response_length b.ip b.ua rtMs =
        Except.error e →
      (chatRunTransaction w1 llm sid (pyStrip b.query)
          b.response_length b.ip b.ua rtMs).2.status = 500 ∧
      (chatRunTransaction w1 llm sid (pyStrip b.query)
          b.response_length b.ip b.ua rtMs).2.errorMsg =
        some ("An error occurred processing your request") ∧
      (chatRunTransaction w1 llm sid (pyStrip b.query)
          b.response_length b.ip b.ua rtMs).1.conversations =
        w.conversations := by
    intro w1 sid hconv htx
    unfold chatRunTransaction
    rw [htx]
    exact ⟨rfl, rfl, hconv⟩
  rcases hv : validate_message_content (pyStrip b.query) with ⟨ok, errText⟩
  rw [hv] at hvalid
  simp only at hvalid
  subst hvalid
  rcases hsid : b.session_id with _ | s
  · rw [hsid] at he
    simp only [chat_query, hrt, hq, hv, hsid, Bool.not_true,
      Bool.false_eq_true, if_false]
    exact hrun _ none rfl he
  · rw [hsid] at he
    rcases hfc : findConv w.conversations s with _ | c
    · simp only [chat_query, hrt, hq, hv, hsid, hfc, Bool.not_true,
        Bool.false_eq_true, if_false]
      exact hrun _ (some s) rfl he
    · obtain ⟨hcap, hsus⟩ := hsess s c hsid hfc
      simp only [chat_query, hrt, hq, hv, hsid, hfc, hsus, Bool.not_true,
        Bool.false_eq_true, if_false,
        if_neg (by omega : ¬ 50 ≤ c.total_messages)]
      exact hrun _ (some s) rfl he

/-- Witness for C9: a valid request onto the existing session 42 of world
`w2`; the transaction raises (the tuple-unpack `ValueError`), the handler
answers 500 and the conversation table is untouched. -/
theorem c9_persistence_exception_witness :
    (chat_query w2 (some b1) llm0 5).2.status = 500 ∧
    (chat_query w2 (some b1) llm0 5).1.conversations = w2.conversations :=
  have h := c9_persistence_exception_rolls_back w2 b1 llm0 5
    (by decide) (by decide) (by decide)
    (by
      intro s c hs hc
      rw [show b1.session_id = some 42 from rfl] at hs
      injection hs with hs42
      rw [← hs42] at hc
      rw [show findConv w2.conversations 42 = some conv42 from rfl] at hc
      injection hc with hc42
      rw [← hc42]
      exact ⟨by decide, by decide⟩)
    ⟨PyErr.valueError, chatTransaction_valueError _ _ _ _ _ _ _ _ _ _ _⟩
  ⟨h.1, h.2.2⟩

end PortfolioChat
